import Mathlib

/-!
Verification of the go-serverless-yt user CRUD backend.

The storage access layer (pkg/user/user.go) and the request dispatch layer
(pkg/handlers/handlers.go) are embedded as pure functions over an explicit
table state. The DynamoDB backend is an external collaborator; following the
spec's interface description it is modelled as a key-value store keyed on the
primary key `email`, supporting get-by-key, paged scan with a continuation
token, and conditional put/update/delete keyed on attribute existence.
Backend call failures unrelated to a condition check are injected through
explicit Bool parameters.
-/

/-- A user record: pkg/user/user.go, `type User struct` with json fields
email, firstName, lastName. -/
structure User where
  email : String
  firstName : String
  lastName : String
deriving DecidableEq, Repr

/-- A DynamoDB attribute value as this program produces them: a string, or
NULL (dynamodbattribute.MarshalMap marshals an empty Go string to NULL). -/
inductive AttributeValue where
  | S : String → AttributeValue
  | NULL : AttributeValue
deriving DecidableEq, Repr

/-- An attribute map (a DynamoDB item, key, or expression-value map). -/
abbrev Item := List (String × AttributeValue)

/-- Look up a named attribute in an attribute map. -/
def lookupAttr (k : String) : Item → Option AttributeValue
  | [] => none
  | a :: it => if a.1 = k then some a.2 else lookupAttr k it

/-- dynamodbattribute marshalling of one string field: an empty string
becomes NULL, any other string an S value. -/
def marshalString (s : String) : AttributeValue :=
  if s = "" then AttributeValue.NULL else AttributeValue.S s

/-- dynamodbattribute.MarshalMap of a User: all three struct fields become
attributes named by their json tags. -/
def marshalMap (u : User) : Item :=
  [("email", marshalString u.email),
   ("firstName", marshalString u.firstName),
   ("lastName", marshalString u.lastName)]

/-- dynamodbattribute unmarshalling of one string field: an S value yields
its string, NULL or an absent attribute yields the zero value "". -/
def attrToString : Option AttributeValue → String
  | some (AttributeValue.S s) => s
  | some AttributeValue.NULL => ""
  | none => ""

/-- dynamodbattribute.UnmarshalMap into a User: each field is read from the
attribute of its json tag; an empty map yields the zero-value User. -/
def unmarshalMap (item : Item) : User :=
  { email := attrToString (lookupAttr "email" item)
  , firstName := attrToString (lookupAttr "firstName" item)
  , lastName := attrToString (lookupAttr "lastName" item) }

/-- The backend table, keyed on the primary key email (spec: a key-value
interface with email as the single primary key). -/
abbrev Table := List (String × Item)

/-- Get the item stored under a primary-key value, if any. -/
def lookupItem (k : String) : Table → Option Item
  | [] => none
  | e :: t => if e.1 = k then some e.2 else lookupItem k t

/-- Remove every item stored under a primary-key value. -/
def removeItem (k : String) : Table → Table
  | [] => []
  | e :: t => if e.1 = k then removeItem k t else e :: removeItem k t

/-- The primary-key value the backend reads from a supplied Key map: its
email attribute. -/
def keyEmail (key : Item) : String :=
  attrToString (lookupAttr "email" key)

/-- pkg/user/user.go, the error message variables. -/
def ErrorFailedToUnmarshalRecord : String := "failed to unmarshal record"

/-- pkg/user/user.go error message. -/
def ErrorFailedToFetchRecord : String := "failed to fetch record"

/-- pkg/user/user.go error message. -/
def ErrorInvalidUserData : String := "invalid user data"

/-- pkg/user/user.go error message. -/
def ErrorInvalidEmail : String := "invalid email"

/-- pkg/user/user.go error message. -/
def ErrorCouldNotMarshalItem : String := "could not marshal item"

/-- pkg/user/user.go error message. -/
def ErrorCouldNotDeleteItem : String := "could not delete item"

/-- pkg/user/user.go error message. -/
def ErrorCouldNotPutItem : String := "could not put item"

/-- pkg/user/user.go error message. -/
def ErrorUserAlreadyExists : String := "user already exists"

/-- pkg/user/user.go error message. -/
def ErrorUserDoesNotExist : String := "user does not exist"

/-- Success of net/mail.ParseAddress on the email field, modelled as a
simplified RFC 5322 addr-spec check: exactly one at sign with a nonempty
local part and a nonempty domain on its sides, and no space. -/
def validEmail (s : String) : Bool :=
  let cs := s.toList
  let lp := cs.takeWhile (fun c => c ≠ '@')
  let dp := (cs.dropWhile (fun c => c ≠ '@')).drop 1
  cs.count '@' == 1 && !lp.isEmpty && !dp.isEmpty && !cs.contains ' '

/-- The outcome of json.Unmarshal of a request body into a User: a User
value (absent json fields decode to the zero value ""), or a parse
failure. -/
inductive Body where
  | json : User → Body
  | malformed : Body
deriving DecidableEq, Repr

namespace user

/-- pkg/user/user.go FetchUser: GetItem keyed on the email, then UnmarshalMap
of the result into a User. `getFail` injects a failing backend call. An
absent record makes GetItem return no item, here the empty attribute map,
which unmarshals without error to the zero-value User. -/
def FetchUser (getFail : Bool) (email : String) (t : Table) : Except String User :=
  if getFail then Except.error ErrorFailedToFetchRecord
  else Except.ok (unmarshalMap ((lookupItem email t).getD []))

/-- The loop body of pkg/user/user.go FetchUsers: scan the current page,
append its users, and continue while a LastEvaluatedKey (here: a nonempty
remainder of pages) is returned. -/
def fetchUsersLoop (users : List User) : List (List Item) → List User
  | [] => users
  | pg :: rest =>
    let users := users ++ pg.map unmarshalMap
    match rest with
    | [] => users
    | _ => fetchUsersLoop users rest

/-- pkg/user/user.go FetchUsers: paged Scan of the whole table, following the
continuation token page by page and accumulating in page order. `pages` is
the backend's paging of the table contents; `scanFail` injects a failing
scan call. -/
def FetchUsers (scanFail : Bool) (pages : List (List Item)) : Except String (List User) :=
  if scanFail then Except.error ErrorFailedToFetchRecord
  else Except.ok (fetchUsersLoop [] pages)

/-- pkg/user/user.go CreateUser: unmarshal the body, validate the email with
mail.ParseAddress, MarshalMap, then a conditional PutItem guarded by
attribute_not_exists(email). `putFail` injects a backend failure other than
the condition check. -/
def CreateUser (putFail : Bool) (body : Body) (t : Table) :
    Except String User × Table :=
  match body with
  | Body.malformed => (Except.error ErrorInvalidUserData, t)
  | Body.json user =>
    if validEmail user.email then
      let item := marshalMap user
      if putFail then (Except.error ErrorCouldNotPutItem, t)
      else
        match lookupItem user.email t with
        | some _ => (Except.error ErrorUserAlreadyExists, t)
        | none => (Except.ok user, (user.email, item) :: t)
    else (Except.error ErrorInvalidEmail, t)

/-- pkg/user/user.go line 199 updateExpressionPart: fmt.Sprintf of one SET
clause, "f = :f" for the given field name. -/
def updateExpressionPart (fieldName : String) : String :=
  fieldName ++ " = :" ++ fieldName

/-- The `updates` slice UpdateUser builds: the literal string "fieldName" is
passed for a non-empty FirstName, exactly as in the source (user.go line
138), and "lastName" for a non-empty LastName. -/
def updateParts (user : User) : List String :=
  (if user.firstName ≠ "" then [updateExpressionPart "fieldName"] else []) ++
  (if user.lastName ≠ "" then [updateExpressionPart "lastName"] else [])

/-- The dynamodb.UpdateItemInput fields UpdateUser fills. -/
structure UpdateItemInput where
  key : Item
  updateExpression : String
  conditionExpression : String
  expressionAttributeValues : Item
  returnValues : String
deriving DecidableEq, Repr

/-- The UpdateItemInput constructed by pkg/user/user.go UpdateUser for a
parsed body: Key and ExpressionAttributeValues are both the whole marshalled
item, the expression joins the update parts after SET, and the write is
conditioned on attribute_exists(email). -/
def updateItemInput (user : User) : UpdateItemInput :=
  { key := marshalMap user
  , updateExpression := "SET " ++ String.intercalate ", " (updateParts user)
  , conditionExpression := "attribute_exists(email)"
  , expressionAttributeValues := marshalMap user
  , returnValues := "ALL_NEW" }

/-- Set (or add) one attribute of an item. -/
def setAttr (k : String) (v : AttributeValue) : Item → Item
  | [] => [(k, v)]
  | a :: it => if a.1 = k then (k, v) :: it else a :: setAttr k v it

/-- The backend applying one SET clause "f = :f" to a stored item: attribute
f is set to the expression attribute value named ":f". A value reference
absent from the supplied ExpressionAttributeValues resolves to nothing and
the clause changes nothing. -/
def applySetClause (eav : Item) (it : Item) (clause : String) : Item :=
  match clause.splitOn " = :" with
  | [f, ref] =>
    match lookupAttr (":" ++ ref) eav with
    | some v => setAttr f v it
    | none => it
  | _ => it

/-- pkg/user/user.go UpdateUser: unmarshal the body, MarshalMap it, then a
conditional UpdateItem (condition attribute_exists on the key); the
ALL_NEW attributes are unmarshalled back into the returned User. `updFail`
injects a backend failure other than the condition check. -/
def UpdateUser (updFail : Bool) (body : Body) (t : Table) :
    Except String User × Table :=
  match body with
  | Body.malformed => (Except.error ErrorInvalidUserData, t)
  | Body.json user =>
    let input := updateItemInput user
    if updFail then (Except.error ErrorCouldNotPutItem, t)
    else
      match lookupItem (keyEmail input.key) t with
      | none => (Except.error ErrorUserDoesNotExist, t)
      | some old =>
        let newItem :=
          (updateParts user).foldl (applySetClause input.expressionAttributeValues) old
        (Except.ok (unmarshalMap newItem),
         (keyEmail input.key, newItem) :: removeItem (keyEmail input.key) t)

/-- The dynamodb.DeleteItemInput fields DeleteUser fills. -/
structure DeleteItemInput where
  key : Item
  conditionExpression : String
deriving DecidableEq, Repr

/-- The DeleteItemInput constructed by pkg/user/user.go DeleteUser for a
parsed body: the Key is the whole marshalled item, and the delete is
conditioned on attribute_exists(email). -/
def deleteItemInput (user : User) : DeleteItemInput :=
  { key := marshalMap user, conditionExpression := "attribute_exists(email)" }

/-- pkg/user/user.go DeleteUser: unmarshal the body, MarshalMap it, then a
conditional DeleteItem (condition attribute_exists on the key). `delFail`
injects a backend failure other than the condition check. -/
def DeleteUser (delFail : Bool) (body : Body) (t : Table) :
    Except String Unit × Table :=
  match body with
  | Body.malformed => (Except.error ErrorInvalidUserData, t)
  | Body.json user =>
    let input := deleteItemInput user
    if delFail then (Except.error ErrorCouldNotDeleteItem, t)
    else
      match lookupItem (keyEmail input.key) t with
      | none => (Except.error ErrorUserDoesNotExist, t)
      | some _ => (Except.ok (), removeItem (keyEmail input.key) t)

end user

/-- pkg/handlers/handlers.go ErrorMethodNotAllowed. -/
def ErrorMethodNotAllowed : String := "Method not allowed"

/-- The body of a response as the handlers build it: a single user, a list
of users, an ErrorBody carrying the error message, the fixed
method-not-allowed string, or no body. -/
inductive ResponseBody where
  | user : User → ResponseBody
  | users : List User → ResponseBody
  | errorBody : Option String → ResponseBody
  | message : String → ResponseBody
  | empty : ResponseBody
deriving DecidableEq, Repr

/-- The response envelope: a status code and a body (spec section 6). -/
structure Response where
  statusCode : Nat
  body : ResponseBody
deriving DecidableEq, Repr

/-- Modelled from the spec: apiResponse, called by every handler, lives in a
file of the repository that is not among the sources; the spec gives the
response envelope as the status code together with the JSON-encoded result
or error body, so it is modelled as pairing the two. -/
def apiResponse (status : Nat) (body : ResponseBody) : Response :=
  { statusCode := status, body := body }

/-- An inbound request: path parameters and a body
(events.APIGatewayProxyRequest as this program reads it). -/
structure Request where
  pathParameters : List (String × String)
  body : Body
deriving DecidableEq, Repr

/-- Go map indexing on PathParameters: the value under the key, or the zero
value "" when the key is absent. -/
def lookupParam (k : String) : List (String × String) → String
  | [] => ""
  | p :: ps => if p.1 = k then p.2 else lookupParam k ps

namespace handlers

/-- pkg/handlers/handlers.go GetUser: with a non-empty email path parameter
fetch that user, otherwise fetch all users; 200 on success, 500 with the
error message otherwise. -/
def GetUser (getFail scanFail : Bool) (req : Request) (t : Table)
    (pages : List (List Item)) : Response :=
  let email := lookupParam "email" req.pathParameters
  if 0 < email.length then
    match user.FetchUser getFail email t with
    | Except.error e => apiResponse 500 (ResponseBody.errorBody (some e))
    | Except.ok result => apiResponse 200 (ResponseBody.user result)
  else
    match user.FetchUsers scanFail pages with
    | Except.error e => apiResponse 500 (ResponseBody.errorBody (some e))
    | Except.ok result => apiResponse 200 (ResponseBody.users result)

/-- pkg/handlers/handlers.go CreateUser: 201 with the created record on
success, 500 with the error message otherwise. -/
def CreateUser (putFail : Bool) (req : Request) (t : Table) : Response :=
  match (user.CreateUser putFail req.body t).1 with
  | Except.error e => apiResponse 500 (ResponseBody.errorBody (some e))
  | Except.ok result => apiResponse 201 (ResponseBody.user result)

/-- pkg/handlers/handlers.go UpdateUser: 201 with the updated record on
success (the source returns StatusCreated here), 500 with the error message
otherwise. -/
def UpdateUser (updFail : Bool) (req : Request) (t : Table) : Response :=
  match (user.UpdateUser updFail req.body t).1 with
  | Except.error e => apiResponse 500 (ResponseBody.errorBody (some e))
  | Except.ok result => apiResponse 201 (ResponseBody.user result)

/-- pkg/handlers/handlers.go DeleteUser: 204 with no body on success, 500
with the error message otherwise. -/
def DeleteUser (delFail : Bool) (req : Request) (t : Table) : Response :=
  match (user.DeleteUser delFail req.body t).1 with
  | Except.error e => apiResponse 500 (ResponseBody.errorBody (some e))
  | Except.ok _ => apiResponse 204 ResponseBody.empty

/-- pkg/handlers/handlers.go UnhandledMethod: 405 with the fixed message. -/
def UnhandledMethod : Response :=
  apiResponse 405 (ResponseBody.message ErrorMethodNotAllowed)

end handlers

/-- Modelled from the spec: the operation dispatch (the router file of the
repository is not among the sources) maps the operation selector to the
matching handler — GET to GetUser, POST to CreateUser, PUT to UpdateUser,
DELETE to DeleteUser — and any unrecognized selector to UnhandledMethod. -/
def handler (method : String) (getFail scanFail putFail updFail delFail : Bool)
    (req : Request) (t : Table) (pages : List (List Item)) : Response :=
  if method = "GET" then handlers.GetUser getFail scanFail req t pages
  else if method = "POST" then handlers.CreateUser putFail req t
  else if method = "PUT" then handlers.UpdateUser updFail req t
  else if method = "DELETE" then handlers.DeleteUser delFail req t
  else handlers.UnhandledMethod

/-! ## Helper lemmas -/

/-- Round trip of one string field through marshalling. -/
theorem attrToString_marshalString (s : String) :
    attrToString (some (marshalString s)) = s := by
  by_cases h : s = "" <;> simp [marshalString, attrToString, h]

/-- Round trip of a whole User through MarshalMap and UnmarshalMap. -/
theorem unmarshalMap_marshalMap (u : User) : unmarshalMap (marshalMap u) = u := by
  cases u with
  | mk e f l =>
    show User.mk (attrToString (some (marshalString e)))
        (attrToString (some (marshalString f)))
        (attrToString (some (marshalString l))) = User.mk e f l
    rw [attrToString_marshalString, attrToString_marshalString,
      attrToString_marshalString]

/-- Marshalling one string field is injective. -/
theorem marshalString_inj (a b : String) (h : marshalString a = marshalString b) :
    a = b := by
  by_cases ha : a = "" <;> by_cases hb : b = "" <;> simp_all [marshalString]

/-- The primary key the backend reads from a marshalled User is its email. -/
theorem keyEmail_marshalMap (u : User) : keyEmail (marshalMap u) = u.email := by
  show attrToString (some (marshalString u.email)) = u.email
  exact attrToString_marshalString u.email

/-- After removing a key nothing is stored under it. -/
theorem lookupItem_removeItem_self (k : String) (t : Table) :
    lookupItem k (removeItem k t) = none := by
  induction t with
  | nil => rfl
  | cons a t ih => by_cases h : a.1 = k <;> simp [removeItem, lookupItem, h, ih]

/-- Removing one key leaves every other key's entry unchanged. -/
theorem lookupItem_removeItem_ne (e k : String) (t : Table) (h : e ≠ k) :
    lookupItem e (removeItem k t) = lookupItem e t := by
  induction t with
  | nil => rfl
  | cons a t ih =>
    by_cases ha : a.1 = k
    · have hae : a.1 ≠ e := fun hh => h (hh.symm.trans ha)
      simp [removeItem, lookupItem, ha, hae, ih, Ne.symm h]
    · by_cases hae : a.1 = e <;> simp [removeItem, lookupItem, ha, hae, ih, h]

/-- One unfolding step of the scan loop when a continuation token follows. -/
theorem fetchUsersLoop_cons_cons (acc : List User) (pg r : List Item)
    (rs : List (List Item)) :
    user.fetchUsersLoop acc (pg :: r :: rs)
      = user.fetchUsersLoop (acc ++ pg.map unmarshalMap) (r :: rs) := rfl

/-- The scan loop accumulates exactly the pages' users, in page order, after
whatever was already accumulated. -/
theorem fetchUsersLoop_eq (pages : List (List Item)) :
    ∀ acc, user.fetchUsersLoop acc pages = acc ++ pages.flatten.map unmarshalMap := by
  induction pages with
  | nil => intro acc; simp [user.fetchUsersLoop]
  | cons pg rest ih =>
    intro acc
    cases rest with
    | nil => simp [user.fetchUsersLoop]
    | cons r rs => rw [fetchUsersLoop_cons_cons, ih]; simp

/-! ## Claims -/

/-- C1: the claim says the update expression covers exactly the non-empty
supplied fields (firstName when non-empty, lastName when non-empty). The
code passes the literal string "fieldName" for a non-empty FirstName
(user.go line 138), so for the body with email a@x.com and firstName A the
expression sent to the store is "SET fieldName = :fieldName" and never
names firstName. -/
theorem updateUser_expression_names_literal_fieldName :
    (user.updateItemInput { email := "a@x.com", firstName := "A", lastName := "" }).updateExpression
        = "SET fieldName = :fieldName"
      ∧ user.updateParts { email := "a@x.com", firstName := "A", lastName := "" }
        ≠ ["firstName = :firstName"] := by
  exact ⟨rfl, by decide⟩

/-- C2: the claim says FetchOne on an email the store holds no record for
fails with RecordNotFound when the backend get succeeds. The code
unmarshals the absent item into the zero-value User and returns it with no
error: FetchUser on the empty store returns that zero value. -/
theorem fetchUser_absent_record_returns_zero_value :
    user.FetchUser false "missing@x.com" []
      = Except.ok { email := "", firstName := "", lastName := "" } := rfl

/-- C6: a Create request whose body parses as a User with an email that is
not well-formed fails with the invalid-email error and leaves the store
unchanged, for every backend-failure flag, user and store. -/
theorem createUser_invalid_email_no_write (pf : Bool) (u : User) (t : Table)
    (hv : validEmail u.email = false) :
    user.CreateUser pf (Body.json u) t = (Except.error ErrorInvalidEmail, t) := by
  simp [user.CreateUser, hv]

/-- C6 witness: the body with email not-an-email fails with the
invalid-email error against a one-record store, which is unchanged. -/
theorem createUser_invalid_email_no_write_witness :
    validEmail "not-an-email" = false
      ∧ user.CreateUser false
          (Body.json { email := "not-an-email", firstName := "", lastName := "" })
          [("a@x.com", marshalMap { email := "a@x.com", firstName := "A", lastName := "" })]
        = (Except.error ErrorInvalidEmail,
           [("a@x.com", marshalMap { email := "a@x.com", firstName := "A", lastName := "" })]) :=
  ⟨by decide, createUser_invalid_email_no_write false _ _ (by decide)⟩

/-- C10: in both UpdateUser and DeleteUser the Key of the request sent to
the store is the whole marshalled body - the email, firstName and lastName
attributes - not the email attribute alone, and the marshalled body
determines the User, so the key depends on every supplied field. -/
theorem update_delete_key_is_marshalled_body (u : User) :
    (user.updateItemInput u).key = marshalMap u
      ∧ (user.deleteItemInput u).key = marshalMap u
      ∧ lookupAttr "email" (user.deleteItemInput u).key = some (marshalString u.email)
      ∧ lookupAttr "firstName" (user.deleteItemInput u).key = some (marshalString u.firstName)
      ∧ lookupAttr "lastName" (user.deleteItemInput u).key = some (marshalString u.lastName)
      ∧ ∀ v : User, marshalMap u = marshalMap v → u = v := by
  refine ⟨rfl, rfl, rfl, rfl, rfl, ?_⟩
  intro v h
  simp only [marshalMap, List.cons.injEq, Prod.mk.injEq, true_and, and_true] at h
  obtain ⟨h1, h2, h3⟩ := h
  cases u with
  | mk e f l =>
    cases v with
    | mk e2 f2 l2 =>
      simp only [User.mk.injEq]
      exact ⟨marshalString_inj e e2 h1, marshalString_inj f f2 h2,
        marshalString_inj l l2 h3⟩

/-- C10 witness: for a concrete body all three attributes appear in the
delete and update keys. -/
theorem update_delete_key_is_marshalled_body_witness :
    (user.updateItemInput { email := "a@x.com", firstName := "A", lastName := "B" }).key
        = marshalMap { email := "a@x.com", firstName := "A", lastName := "B" }
      ∧ (user.deleteItemInput { email := "a@x.com", firstName := "A", lastName := "B" }).key
        = marshalMap { email := "a@x.com", firstName := "A", lastName := "B" }
      ∧ lookupAttr "email" (user.deleteItemInput { email := "a@x.com", firstName := "A", lastName := "B" }).key
        = some (marshalString "a@x.com")
      ∧ lookupAttr "firstName" (user.deleteItemInput { email := "a@x.com", firstName := "A", lastName := "B" }).key
        = some (marshalString "A")
      ∧ lookupAttr "lastName" (user.deleteItemInput { email := "a@x.com", firstName := "A", lastName := "B" }).key
        = some (marshalString "B")
      ∧ ∀ v : User, marshalMap { email := "a@x.com", firstName := "A", lastName := "B" } = marshalMap v
          → { email := "a@x.com", firstName := "A", lastName := "B" } = v :=
  update_delete_key_is_marshalled_body { email := "a@x.com", firstName := "A", lastName := "B" }

/-- C3: for a User with a well-formed email whose email is not yet in the
store, Create succeeds and writes the marshalled record, and FetchOne on
that email afterwards returns a User equal to the one created. -/
theorem createUser_fetchUser_roundtrip (u : User) (t : Table)
    (hv : validEmail u.email = true) (habs : lookupItem u.email t = none) :
    user.CreateUser false (Body.json u) t
        = (Except.ok u, (u.email, marshalMap u) :: t)
      ∧ user.FetchUser false u.email ((u.email, marshalMap u) :: t)
        = Except.ok u := by
  constructor
  · simp [user.CreateUser, hv, habs]
  · show Except.ok (unmarshalMap
        ((lookupItem u.email ((u.email, marshalMap u) :: t)).getD [])) = Except.ok u
    simp [lookupItem, unmarshalMap_marshalMap]

/-- C3 witness: creating a@x.com in the empty store then fetching it returns
the same User. -/
theorem createUser_fetchUser_roundtrip_witness :
    user.CreateUser false
        (Body.json { email := "a@x.com", firstName := "A", lastName := "" }) []
      = (Except.ok { email := "a@x.com", firstName := "A", lastName := "" },
         [("a@x.com", marshalMap { email := "a@x.com", firstName := "A", lastName := "" })])
    ∧ user.FetchUser false "a@x.com"
        [("a@x.com", marshalMap { email := "a@x.com", firstName := "A", lastName := "" })]
      = Except.ok { email := "a@x.com", firstName := "A", lastName := "" } :=
  createUser_fetchUser_roundtrip
    { email := "a@x.com", firstName := "A", lastName := "" } [] (by decide) rfl

/-- C4: however the store contents are split into backend pages, FetchAll
follows the continuation tokens through every page and returns exactly the
concatenation of the pages in page order - every stored record, no
duplicates, no omissions. -/
theorem fetchUsers_returns_concatenation_of_pages (store : List Item)
    (pages : List (List Item)) (hp : pages.flatten = store) :
    user.FetchUsers false pages = Except.ok (store.map unmarshalMap) := by
  subst hp
  show Except.ok (user.fetchUsersLoop [] pages) = _
  rw [fetchUsersLoop_eq]
  simp

/-- C4 witness: three records split into two pages are all returned, in page
order. -/
theorem fetchUsers_returns_concatenation_of_pages_witness :
    user.FetchUsers false
        [[marshalMap { email := "a@x.com", firstName := "A", lastName := "" }],
         [marshalMap { email := "b@x.com", firstName := "B", lastName := "" },
          marshalMap { email := "c@x.com", firstName := "C", lastName := "" }]]
      = Except.ok
          ([marshalMap { email := "a@x.com", firstName := "A", lastName := "" },
            marshalMap { email := "b@x.com", firstName := "B", lastName := "" },
            marshalMap { email := "c@x.com", firstName := "C", lastName := "" }].map
            unmarshalMap) :=
  fetchUsers_returns_concatenation_of_pages _ _ rfl

/-- C5: creating the same email twice: the first call succeeds and writes
the record; the second fails with the already-exists error and leaves the
store - including the first record - unchanged. -/
theorem createUser_twice_second_already_exists (u1 u2 : User) (t : Table)
    (hv : validEmail u1.email = true) (he : u2.email = u1.email)
    (habs : lookupItem u1.email t = none) :
    user.CreateUser false (Body.json u1) t
        = (Except.ok u1, (u1.email, marshalMap u1) :: t)
      ∧ user.CreateUser false (Body.json u2) ((u1.email, marshalMap u1) :: t)
        = (Except.error ErrorUserAlreadyExists, (u1.email, marshalMap u1) :: t)
      ∧ lookupItem u1.email ((u1.email, marshalMap u1) :: t)
        = some (marshalMap u1) := by
  refine ⟨by simp [user.CreateUser, hv, habs], ?_, by simp [lookupItem]⟩
  simp [user.CreateUser, he, hv, lookupItem]

/-- C5 witness: creating a@x.com twice in the empty store; the second call
fails with the already-exists error and the first record is still there. -/
theorem createUser_twice_second_already_exists_witness :
    user.CreateUser false
        (Body.json { email := "a@x.com", firstName := "A", lastName := "" }) []
      = (Except.ok { email := "a@x.com", firstName := "A", lastName := "" },
         [("a@x.com", marshalMap { email := "a@x.com", firstName := "A", lastName := "" })])
    ∧ user.CreateUser false
        (Body.json { email := "a@x.com", firstName := "A", lastName := "" })
        [("a@x.com", marshalMap { email := "a@x.com", firstName := "A", lastName := "" })]
      = (Except.error ErrorUserAlreadyExists,
         [("a@x.com", marshalMap { email := "a@x.com", firstName := "A", lastName := "" })])
    ∧ lookupItem "a@x.com"
        [("a@x.com", marshalMap { email := "a@x.com", firstName := "A", lastName := "" })]
      = some (marshalMap { email := "a@x.com", firstName := "A", lastName := "" }) :=
  createUser_twice_second_already_exists
    { email := "a@x.com", firstName := "A", lastName := "" }
    { email := "a@x.com", firstName := "A", lastName := "" } [] (by decide) rfl rfl

/-- DeleteUser on a parsed body, unfolded: the key the store reads from the
marshalled body is the email, so the conditional delete hinges on that
email's presence. -/
theorem deleteUser_eq (u : User) (t : Table) :
    user.DeleteUser false (Body.json u) t =
      match lookupItem u.email t with
      | none => (Except.error ErrorUserDoesNotExist, t)
      | some _ => (Except.ok (), removeItem u.email t) := by
  show (match lookupItem (keyEmail (marshalMap u)) t with
        | none => (Except.error ErrorUserDoesNotExist, t)
        | some _ => (Except.ok (), removeItem (keyEmail (marshalMap u)) t)) = _
  rw [keyEmail_marshalMap u]

/-- C7: Delete on an email the store has no record for fails with the
does-not-exist error and leaves the store unchanged; Delete on an existing
email succeeds with no value, removes that record, and leaves every other
record in place. -/
theorem deleteUser_notfound_or_removes (u : User) (t : Table) :
    (lookupItem u.email t = none →
      user.DeleteUser false (Body.json u) t
        = (Except.error ErrorUserDoesNotExist, t))
    ∧ ∀ it, lookupItem u.email t = some it →
        (user.DeleteUser false (Body.json u) t).1 = Except.ok ()
        ∧ lookupItem u.email (user.DeleteUser false (Body.json u) t).2 = none
        ∧ ∀ e, e ≠ u.email →
            lookupItem e (user.DeleteUser false (Body.json u) t).2
              = lookupItem e t := by
  constructor
  · intro h
    rw [deleteUser_eq, h]
  · intro it h
    rw [deleteUser_eq, h]
    exact ⟨rfl, lookupItem_removeItem_self u.email t,
      fun e he => lookupItem_removeItem_ne e u.email t he⟩

/-- C7 witness: deleting a@x.com from the empty store fails with the
does-not-exist error; deleting it from a store holding it and b@x.com
removes it, returns no value, and leaves b@x.com in place. -/
theorem deleteUser_notfound_or_removes_witness :
    user.DeleteUser false
        (Body.json { email := "a@x.com", firstName := "", lastName := "" }) []
      = (Except.error ErrorUserDoesNotExist, [])
    ∧ (user.DeleteUser false
        (Body.json { email := "a@x.com", firstName := "", lastName := "" })
        [("a@x.com", marshalMap { email := "a@x.com", firstName := "A", lastName := "" }),
         ("b@x.com", marshalMap { email := "b@x.com", firstName := "B", lastName := "" })]).1
      = Except.ok ()
    ∧ lookupItem "a@x.com"
        (user.DeleteUser false
          (Body.json { email := "a@x.com", firstName := "", lastName := "" })
          [("a@x.com", marshalMap { email := "a@x.com", firstName := "A", lastName := "" }),
           ("b@x.com", marshalMap { email := "b@x.com", firstName := "B", lastName := "" })]).2
      = none
    ∧ lookupItem "b@x.com"
        (user.DeleteUser false
          (Body.json { email := "a@x.com", firstName := "", lastName := "" })
          [("a@x.com", marshalMap { email := "a@x.com", firstName := "A", lastName := "" }),
           ("b@x.com", marshalMap { email := "b@x.com", firstName := "B", lastName := "" })]).2
      = lookupItem "b@x.com"
          [("a@x.com", marshalMap { email := "a@x.com", firstName := "A", lastName := "" }),
           ("b@x.com", marshalMap { email := "b@x.com", firstName := "B", lastName := "" })] := by
  have h2 := (deleteUser_notfound_or_removes
    { email := "a@x.com", firstName := "", lastName := "" }
    [("a@x.com", marshalMap { email := "a@x.com", firstName := "A", lastName := "" }),
     ("b@x.com", marshalMap { email := "b@x.com", firstName := "B", lastName := "" })]).2
    (marshalMap { email := "a@x.com", firstName := "A", lastName := "" }) rfl
  exact ⟨(deleteUser_notfound_or_removes
      { email := "a@x.com", firstName := "", lastName := "" } []).1 rfl,
    h2.1, h2.2.1, h2.2.2 "b@x.com" (by decide)⟩

/-- C8: the Fetch dispatch calls FetchOne with the email path parameter when
it is present and non-empty, and FetchAll otherwise; a storage success
yields status 200 with the fetched record or records as the body. -/
theorem getUser_dispatches_on_email_param (gf sf : Bool) (req : Request)
    (t : Table) (pages : List (List Item)) :
    (0 < (lookupParam "email" req.pathParameters).length →
      ∀ u, user.FetchUser gf (lookupParam "email" req.pathParameters) t
          = Except.ok u →
        handlers.GetUser gf sf req t pages
          = { statusCode := 200, body := ResponseBody.user u })
    ∧ ((lookupParam "email" req.pathParameters).length = 0 →
      ∀ us, user.FetchUsers sf pages = Except.ok us →
        handlers.GetUser gf sf req t pages
          = { statusCode := 200, body := ResponseBody.users us }) := by
  constructor
  · intro hlen u hu
    simp [handlers.GetUser, hlen, hu, apiResponse]
  · intro hlen us hus
    simp [handlers.GetUser, hlen, hus, apiResponse]

/-- C8 witness: with the email parameter a@x.com set, a one-record store is
fetched by key and answered with 200 and that record; with no email
parameter, the whole (empty) store is scanned and answered with 200 and the
empty list. -/
theorem getUser_dispatches_on_email_param_witness :
    handlers.GetUser false false
        { pathParameters := [("email", "a@x.com")], body := Body.malformed }
        [("a@x.com", marshalMap { email := "a@x.com", firstName := "A", lastName := "" })]
        []
      = { statusCode := 200,
          body := ResponseBody.user { email := "a@x.com", firstName := "A", lastName := "" } }
    ∧ handlers.GetUser false false
        { pathParameters := [], body := Body.malformed }
        [("a@x.com", marshalMap { email := "a@x.com", firstName := "A", lastName := "" })]
        []
      = { statusCode := 200, body := ResponseBody.users [] } :=
  ⟨(getUser_dispatches_on_email_param false false
      { pathParameters := [("email", "a@x.com")], body := Body.malformed }
      [("a@x.com", marshalMap { email := "a@x.com", firstName := "A", lastName := "" })]
      []).1 (by decide)
      { email := "a@x.com", firstName := "A", lastName := "" } rfl,
   (getUser_dispatches_on_email_param false false
      { pathParameters := [], body := Body.malformed }
      [("a@x.com", marshalMap { email := "a@x.com", firstName := "A", lastName := "" })]
      []).2 rfl [] rfl⟩

/-- C9: whichever operation was dispatched, a storage-layer failure of any
kind is answered with status 500 and a body carrying the error's message
text, and an unrecognized operation selector is answered with status 405
and the fixed message "Method not allowed". -/
theorem storage_failures_500_unknown_method_405 :
    (∀ (gf sf : Bool) (req : Request) (t : Table) (pages : List (List Item))
        (e : String),
      ((0 < (lookupParam "email" req.pathParameters).length
          ∧ user.FetchUser gf (lookupParam "email" req.pathParameters) t
            = Except.error e)
        ∨ ((lookupParam "email" req.pathParameters).length = 0
          ∧ user.FetchUsers sf pages = Except.error e)) →
      handlers.GetUser gf sf req t pages
        = { statusCode := 500, body := ResponseBody.errorBody (some e) })
    ∧ (∀ (pf : Bool) (req : Request) (t : Table) (e : String),
        (user.CreateUser pf req.body t).1 = Except.error e →
        handlers.CreateUser pf req t
          = { statusCode := 500, body := ResponseBody.errorBody (some e) })
    ∧ (∀ (uf : Bool) (req : Request) (t : Table) (e : String),
        (user.UpdateUser uf req.body t).1 = Except.error e →
        handlers.UpdateUser uf req t
          = { statusCode := 500, body := ResponseBody.errorBody (some e) })
    ∧ (∀ (df : Bool) (req : Request) (t : Table) (e : String),
        (user.DeleteUser df req.body t).1 = Except.error e →
        handlers.DeleteUser df req t
          = { statusCode := 500, body := ResponseBody.errorBody (some e) })
    ∧ (∀ method : String, method ≠ "GET" → method ≠ "POST" → method ≠ "PUT" →
        method ≠ "DELETE" →
        ∀ (gf sf pf uf df : Bool) (req : Request) (t : Table)
          (pages : List (List Item)),
          handler method gf sf pf uf df req t pages
            = { statusCode := 405,
                body := ResponseBody.message "Method not allowed" }) := by
  refine ⟨?_, ?_, ?_, ?_, ?_⟩
  · intro gf sf req t pages e h
    rcases h with ⟨hlen, hf⟩ | ⟨hlen, hf⟩
    · simp [handlers.GetUser, hlen, hf, apiResponse]
    · simp [handlers.GetUser, hlen, hf, apiResponse]
  · intro pf req t e h
    simp [handlers.CreateUser, h, apiResponse]
  · intro uf req t e h
    simp [handlers.UpdateUser, h, apiResponse]
  · intro df req t e h
    simp [handlers.DeleteUser, h, apiResponse]
  · intro method h1 h2 h3 h4 gf sf pf uf df req t pages
    simp [handler, h1, h2, h3, h4, handlers.UnhandledMethod, apiResponse,
      ErrorMethodNotAllowed]

/-- C9 witness: a failing get, a malformed create, update and delete body
each answer 500 with the matching message, and the selector PATCH answers
405 with the fixed message. -/
theorem storage_failures_500_unknown_method_405_witness :
    handlers.GetUser true false
        { pathParameters := [("email", "a@x.com")], body := Body.malformed } [] []
      = { statusCode := 500,
          body := ResponseBody.errorBody (some ErrorFailedToFetchRecord) }
    ∧ handlers.CreateUser false
        { pathParameters := [], body := Body.malformed } []
      = { statusCode := 500,
          body := ResponseBody.errorBody (some ErrorInvalidUserData) }
    ∧ handlers.UpdateUser false
        { pathParameters := [], body := Body.malformed } []
      = { statusCode := 500,
          body := ResponseBody.errorBody (some ErrorInvalidUserData) }
    ∧ handlers.DeleteUser false
        { pathParameters := [], body := Body.malformed } []
      = { statusCode := 500,
          body := ResponseBody.errorBody (some ErrorInvalidUserData) }
    ∧ handler "PATCH" false false false false false
        { pathParameters := [], body := Body.malformed } [] []
      = { statusCode := 405, body := ResponseBody.message "Method not allowed" } :=
  ⟨storage_failures_500_unknown_method_405.1 true false
      { pathParameters := [("email", "a@x.com")], body := Body.malformed } [] []
      ErrorFailedToFetchRecord (Or.inl ⟨by decide, rfl⟩),
   storage_failures_500_unknown_method_405.2.1 false
      { pathParameters := [], body := Body.malformed } [] ErrorInvalidUserData rfl,
   storage_failures_500_unknown_method_405.2.2.1 false
      { pathParameters := [], body := Body.malformed } [] ErrorInvalidUserData rfl,
   storage_failures_500_unknown_method_405.2.2.2.1 false
      { pathParameters := [], body := Body.malformed } [] ErrorInvalidUserData rfl,
   storage_failures_500_unknown_method_405.2.2.2.2 "PATCH"
      (by decide) (by decide) (by decide) (by decide)
      false false false false false
      { pathParameters := [], body := Body.malformed } [] []⟩
